import Mathlib

/-!
Verification of the TP-Link Easy Smart switch client: the VLAN bitmask
codec, the VLAN model builders, the PoE parameter mapper, and the
reconciliation coordinator (port-to-VLAN moves, refresh cycle, read
accessors), embedded shallowly from
`custom_components/tplink_easy_smart/client/tplink_api.py` and
`custom_components/tplink_easy_smart/update_coordinator.py`.

Conventions of the embedding:
* Python ints are `Nat` (masks, port numbers, VLAN ids) or `Int` where a
  negative value is observable (accessor arguments); floats whose only use
  is comparison/transport are `ℚ`.
* A Python function that can raise is modelled with `Except Unit`; an
  uncaught exception is `.error ()`.
* A Python `dict` (insertion-ordered, overwriting on re-assignment) is an
  association list `List (Nat × α)` manipulated only through `dictGet` /
  `dictInsert` below.
-/

namespace TpLinkEasySmart

/-- Python dict read `d.get(k)`; a `none` key models `d.get(None)`,
which finds nothing in an int-keyed dict. -/
def dictGet {α : Type} (d : List (Nat × α)) (k : Option Nat) : Option α :=
  match k with
  | none => none
  | some key => (d.find? (fun kv => kv.1 == key)).map (fun kv => kv.2)

/-- Python dict write `d[k] = v`: replace the (unique) existing binding in
place, keeping its position, otherwise append at the end — Python dicts
preserve insertion order and overwrite on re-assignment. -/
def dictInsert {α : Type} : List (Nat × α) → Nat → α → List (Nat × α)
  | [], k, v => [(k, v)]
  | kv :: tl, k, v => if kv.1 == k then (k, v) :: tl else kv :: dictInsert tl k v

theorem dictGet_insert_self {α : Type} (d : List (Nat × α)) (k : Nat) (v : α) :
    dictGet (dictInsert d k v) (some k) = some v := by
  induction d with
  | nil => simp [dictGet, dictInsert, List.find?]
  | cons hd tl ih =>
    by_cases hk : (hd.1 == k) = true
    · simp [dictGet, dictInsert, hk, List.find?]
    · simp only [dictInsert, hk, if_false, Bool.false_eq_true]
      simpa [dictGet, List.find?, Bool.eq_false_iff.mpr hk] using ih

theorem dictGet_insert_ne {α : Type} (d : List (Nat × α)) (k k' : Nat) (v : α)
    (h : k' ≠ k) : dictGet (dictInsert d k v) (some k') = dictGet d (some k') := by
  have hkk : ((k : Nat) == k') = false := by simp [Ne.symm h]
  induction d with
  | nil => simp [dictGet, dictInsert, List.find?, hkk]
  | cons hd tl ih =>
    by_cases hk : (hd.1 == k) = true
    · have hhd : (hd.1 == k') = false := by
        have : hd.1 = k := by simpa using hk
        simp [this, Ne.symm h]
      simp [dictGet, dictInsert, hk, List.find?, hkk, hhd]
    · simp only [dictInsert, hk, if_false, Bool.false_eq_true]
      cases hq : (hd.1 == k') with
      | true => simp [dictGet, List.find?, hq]
      | false =>
        simpa [dictGet, List.find?, hq] using ih

/-! ## Bitmask codec (`tplink_api.py`)

The source sizes the per-VLAN bit scan from the mask itself:
`bits = int(max(8, math.log(mbr, 2) + 1))`, i.e. `max 8 (⌊log₂ mbr⌋ + 1)`
for `mbr ≥ 1`; `math.log(0, 2)` raises `ValueError`. -/

/-- `⌊log₂ n⌋` by structural recursion on a fuel argument (so that the
kernel can evaluate it); called with `fuel = n`. -/
def log2fuel : Nat → Nat → Nat
  | 0, _ => 0
  | fuel + 1, n => if n < 2 then 0 else log2fuel fuel (n / 2) + 1

theorem log2fuel_spec (fuel : Nat) : ∀ n, 1 ≤ n → n ≤ fuel →
    2 ^ log2fuel fuel n ≤ n ∧ n < 2 ^ (log2fuel fuel n + 1) := by
  induction fuel with
  | zero => intro n h1 h2; omega
  | succ fuel ih =>
    intro n h1 h2
    by_cases hn : n < 2
    · have : n = 1 := by omega
      subst this
      simp [log2fuel]
    · have hrec := ih (n / 2) (by omega) (by omega)
      simp only [log2fuel, hn, if_false]
      constructor
      · calc 2 ^ (log2fuel fuel (n / 2) + 1) = 2 * 2 ^ log2fuel fuel (n / 2) := by ring
        _ ≤ 2 * (n / 2) := by omega
        _ ≤ n := by omega
      · have : n < 2 * 2 ^ (log2fuel fuel (n / 2) + 1) := by omega
        calc n < 2 * 2 ^ (log2fuel fuel (n / 2) + 1) := this
        _ = 2 ^ (log2fuel fuel (n / 2) + 1 + 1) := by ring

/-- `int(max(8, math.log(mbr, 2) + 1))` from the source, for `mbr ≥ 1`. -/
def bitsOf (mbr : Nat) : Nat := max 8 (log2fuel mbr mbr + 1)

theorem testBit_lt_bitsOf {m i : Nat} (h : m.testBit i = true) : i < bitsOf m := by
  have hm : 1 ≤ m := by
    by_contra hm
    have : m = 0 := by omega
    subst this
    simp [Nat.zero_testBit] at h
  have hle : 2 ^ i ≤ m := by
    by_contra hlt
    have := Nat.testBit_lt_two_pow (x := m) (i := i) (by omega)
    simp [this] at h
  have hub := (log2fuel_spec m m hm le_rfl).2
  have : 2 ^ i < 2 ^ (log2fuel m m + 1) := lt_of_le_of_lt hle hub
  have := (Nat.pow_lt_pow_iff_right (a := 2) (by omega)).mp this
  unfold bitsOf
  omega

/-- The per-VLAN membership decode loop of `get_port_based_vlan_info` /
`get_1q_vlan_info`: scan `bitsOf mbr` bit positions (LSB = port 1) and
collect the 1-based numbers of the set bits, in ascending order. -/
def decodeMembers (mbr : Nat) : List Nat :=
  ((List.range (bitsOf mbr)).filter (fun i => mbr.testBit i)).map (fun i => i + 1)

theorem mem_decodeMembers {m p : Nat} :
    p ∈ decodeMembers m ↔ 1 ≤ p ∧ m.testBit (p - 1) = true := by
  unfold decodeMembers
  simp only [List.mem_map, List.mem_filter, List.mem_range]
  constructor
  · rintro ⟨i, ⟨_, hbit⟩, rfl⟩
    exact ⟨by omega, by simpa using hbit⟩
  · rintro ⟨hp, hbit⟩
    exact ⟨p - 1, ⟨testBit_lt_bitsOf hbit, hbit⟩, by omega⟩

/-- Modelled from the spec: `encode_membership(ports)` ORs together
`1 << (port - 1)` for each member port (§4.1).  The repository never
defines this function explicitly — its mutators submit port lists
directly — so it is taken from the spec's words for the round-trip claim. -/
def encode_membership (ports : List Nat) : Nat :=
  ports.foldr (fun p acc => (1 <<< (p - 1)) ||| acc) 0

theorem testBit_one_shiftLeft (k j : Nat) :
    ((1 <<< k : Nat).testBit j) = decide (j = k) := by
  rw [Nat.testBit_shiftLeft]
  by_cases h : j = k
  · subst h; simp
  · by_cases hk : k ≤ j
    · have hjk : j - k ≠ 0 := by omega
      have : (1 : Nat).testBit (j - k) = false := by
        have : (1 : Nat) < 2 ^ (j - k) := by
          have : 1 ≤ j - k := by omega
          calc (1 : Nat) < 2 ^ 1 := by norm_num
          _ ≤ 2 ^ (j - k) := Nat.pow_le_pow_right (by norm_num) this
        exact Nat.testBit_lt_two_pow this
      simp [this, h]
    · simp [h, show ¬ j ≥ k by omega]

theorem testBit_encode_membership (L : List Nat) (j : Nat) :
    (encode_membership L).testBit j = L.any (fun p => decide (j = p - 1)) := by
  induction L with
  | nil => simp [encode_membership, Nat.zero_testBit]
  | cons p t ih =>
    simp only [encode_membership, List.foldr_cons, Nat.testBit_or, List.any_cons]
    rw [show (t.foldr (fun p acc => (1 <<< (p - 1)) ||| acc) 0) = encode_membership t from rfl,
      ih, testBit_one_shiftLeft]

/-! ## VLAN model builders (`tplink_api.py`) -/

/-- `PortBasedVLAN(vid, vlan_ports)` — `classes.py` is not among the
provided sources; fields follow the constructor calls and the spec §3
(`id`, `ports`). -/
structure PortBasedVLAN where
  vid : Nat
  ports : List Nat
deriving DecidableEq, Repr

/-- `IEEE1QVLAN(vid, vlan_untag_ports, vlan_tag_ports, vlan_notmem_ports)`
— field names follow the attribute accesses in `update_coordinator.py`
(`ungtag_ports`, `tag_ports`, `notmem_ports`, spelling as in the source). -/
structure IEEE1QVLAN where
  vid : Nat
  ungtag_ports : List Nat
  tag_ports : List Nat
  notmem_ports : List Nat
deriving DecidableEq, Repr

/-- The `pvlan_ds` page variable consumed by `get_port_based_vlan_info`:
`state` truthiness, `portNum` (0 models a falsy/absent count), parallel
`vids`/`mbrs` arrays. -/
structure PVlanData where
  state : Bool
  portNum : Nat
  vids : List Nat
  mbrs : List Nat
deriving DecidableEq, Repr

/-- The `qvlan_ds` page variable consumed by `get_1q_vlan_info`. -/
structure QVlanData where
  state : Bool
  portNum : Nat
  vids : List Nat
  untagMbrs : List Nat
  tagMbrs : List Nat
deriving DecidableEq, Repr

/-- One iteration of the per-port first-match scan shared by both info
functions: the first VLAN in declaration order whose mask has bit
`port - 1` set, defaulting to VLAN 1.  The parallel arrays
`vids`/`mbrs` (`mbrs[idx]` in the source) are modelled by `zip`, which
agrees with the source whenever `mbrs` is at least as long as `vids`. -/
def firstVlanOf (vids mbrs : List Nat) (port : Nat) : Nat :=
  match (vids.zip mbrs).find? (fun vm => vm.2 &&& (1 <<< (port - 1)) != 0) with
  | some vm => vm.1
  | none => 1

/-- Second loop of `get_port_based_vlan_info`: build the `{vid: PortBasedVLAN}`
dict.  `math.log(mbr, 2)` raises `ValueError` at the first zero mask —
the port-based decode has no zero guard (unlike the 802.1Q one). -/
def buildPBTable : List (Nat × Nat) → List (Nat × PortBasedVLAN) →
    Except Unit (List (Nat × PortBasedVLAN))
  | [], acc => .ok acc
  | (vid, mbr) :: rest, acc =>
    if mbr = 0 then .error ()
    else buildPBTable rest (dictInsert acc vid ⟨vid, decodeMembers mbr⟩)

/-- `get_port_based_vlan_info` on an already-scraped `pvlan_ds` page.
`.ok none` models the `(None, None)` feature-unavailable return;
`.error ()` models an uncaught `ValueError` from `math.log(0, 2)`. -/
def get_port_based_vlan_info (d : PVlanData) :
    Except Unit (Option (List Nat × List (Nat × PortBasedVLAN))) :=
  if d.state = false then .ok none
  else if d.portNum = 0 then .ok none
  else if d.vids = [] then .ok none
  else if d.mbrs = [] then .ok none
  else
    let ports := (List.range' 1 d.portNum).map (firstVlanOf d.vids d.mbrs)
    match buildPBTable (d.vids.zip d.mbrs) [] with
    | .error e => .error e
    | .ok vlans => .ok (some (ports, vlans))

/-- 802.1Q per-VLAN decode: same bit scan but guarded, `if untagMbr != 0`,
so a zero mask yields the empty list instead of raising. -/
def decodeMembersGuarded (mbr : Nat) : List Nat :=
  if mbr = 0 then [] else decodeMembers mbr

/-- Second loop of `get_1q_vlan_info`: the not-member complement is taken
over `[*range(1, 8, 1)]` — the ports `1..7`, hardcoded in the source
irrespective of the reported port count. -/
def buildQTable : List (Nat × Nat × Nat) → List (Nat × IEEE1QVLAN) →
    List (Nat × IEEE1QVLAN)
  | [], acc => acc
  | (vid, untagMbr, tagMbr) :: rest, acc =>
    let u := decodeMembersGuarded untagMbr
    let t := decodeMembersGuarded tagMbr
    let full := List.range' 1 7
    let nm := full.filter (fun x => decide (x ∉ u) && decide (x ∉ t))
    buildQTable rest (dictInsert acc vid ⟨vid, u, t, nm⟩)

/-- `get_1q_vlan_info` on an already-scraped `qvlan_ds` page; `none`
models the `(None, None)` feature-unavailable return (this variant
raises nothing: both bit scans are zero-guarded). -/
def get_1q_vlan_info (d : QVlanData) :
    Option (List Nat × List (Nat × IEEE1QVLAN)) :=
  if d.state = false then none
  else if d.portNum = 0 then none
  else if d.vids = [] then none
  else if d.untagMbrs = [] then none
  else if d.tagMbrs = [] then none
  else
    let untag_ports := (List.range' 1 d.portNum).map (firstVlanOf d.vids d.untagMbrs)
    some (untag_ports, buildQTable (d.vids.zip (d.untagMbrs.zip d.tagMbrs)) [])

example : decodeMembers 256 = [9] := by decide
example : decodeMembers 5 = [1, 3] := by decide
example : get_port_based_vlan_info ⟨true, 8, [5], [0]⟩ = .error () := rfl
example : (get_1q_vlan_info ⟨true, 8, [2], [0], [0]⟩).isSome = true := by decide

/-! ## PoE parameter mapper (`tplink_api.py`)

`classes.py` is not among the provided sources; the enum members below are
modelled from the spec §4.3 (a fixed 3-entry priority table and 5 defined
power-limit classes) and match the keys of the two `_SET_MAP` tables. -/

/-- Modelled from the spec: the `PoePriority` enum (`classes.py` is missing
from the sources); §4.3 gives the 3-entry table HIGH/MIDDLE/LOW. -/
inductive PoePriority
  | HIGH
  | MIDDLE
  | LOW
deriving DecidableEq, Repr

/-- Modelled from the spec: the `PoePowerLimit` enum (`classes.py` is
missing from the sources); §4.3/§8 give 5 defined limit classes, matching
the 5 keys of `_POE_POWER_LIMITS_SET_MAP`. -/
inductive PoePowerLimit
  | AUTO
  | CLASS_1
  | CLASS_2
  | CLASS_3
  | CLASS_4
deriving DecidableEq, Repr

/-- The `priority` argument of `set_port_poe_settings` as Python sees it:
either a `PoePriority` enum member or any other value (for which the dict
lookup `_POE_PRIORITIES_SET_MAP.get(priority)` returns `None`). -/
inductive PriorityArg
  | known (p : PoePriority)
  | unknownVal
deriving DecidableEq, Repr

/-- The duck-typed `power_limit` argument: a `PoePowerLimit` enum member, a
float, or a value of any other type. -/
inductive PowerLimitArg
  | enumVal (l : PoePowerLimit)
  | floatVal (w : ℚ)
  | otherVal
deriving DecidableEq, Repr

/-- The `name_ppowerlimit2` wire field: `None`, a descriptive suffix
string, or the raw float watts. -/
inductive LimitExtra
  | noExtra
  | strExtra (s : String)
  | numExtra (w : ℚ)
deriving DecidableEq, Repr

/-- `_POE_PRIORITIES_SET_MAP`: HIGH→1, MIDDLE→2, LOW→3. -/
def _POE_PRIORITIES_SET_MAP : PoePriority → Nat
  | .HIGH => 1
  | .MIDDLE => 2
  | .LOW => 3

/-- `_POE_POWER_LIMITS_SET_MAP`: the fixed 5-entry (code, suffix) table. -/
def _POE_POWER_LIMITS_SET_MAP : PoePowerLimit → Nat × LimitExtra
  | .AUTO => (1, .noExtra)
  | .CLASS_1 => (2, .strExtra "(4w)")
  | .CLASS_2 => (3, .strExtra "(7w)")
  | .CLASS_3 => (4, .strExtra "(15.4w)")
  | .CLASS_4 => (5, .strExtra "(30w)")

/-- The form body POSTed by `set_port_poe_settings` (field names as in the
source; `sel_port` stands for the dynamic `sel_<port>` key). -/
structure PoePostPayload where
  name_pstate : Nat
  name_ppriority : Nat
  name_ppowerlimit : Nat
  name_ppowerlimit2 : LimitExtra
  sel_port : Int
deriving DecidableEq, Repr

/-- The `ActionError` raise sites of `set_port_poe_settings`, one
constructor per distinct message. -/
inductive PoeSetError
  | featureUnsupported
  | portTooSmall
  | noPoePortsCount
  | portTooLarge
  | invalidPriority
  | powerLimitOutOfRange
  | invalidPowerLimit
deriving DecidableEq, Repr

/-- Device interactions of `set_port_poe_settings`, in issue order: the
GET that reads `poe_port_num` from `PoeConfigRpm.htm`, and the final POST
to `poe_port_config.cgi`. -/
inductive PoeSetCall
  | getPoePortNum
  | post (p : PoePostPayload)
deriving DecidableEq, Repr

/-- `set_port_poe_settings`: feature gate, port bounds, priority and
power-limit mapping, then the POST.  Returns the outcome together with
the ordered list of device calls issued (`poe_port_num : Option Nat`
is what the `GET` read returns; `none` or `some 0` are falsy). -/
def set_port_poe_settings (poe_available : Bool) (poe_port_num : Option Nat)
    (port_number : Int) (enabled : Bool) (priority : PriorityArg)
    (power_limit : PowerLimitArg) :
    Except PoeSetError PoePostPayload × List PoeSetCall :=
  if poe_available = false then (.error .featureUnsupported, [])
  else if port_number < 1 then (.error .portTooSmall, [])
  else
    match poe_port_num with
    | none => (.error .noPoePortsCount, [.getPoePortNum])
    | some c =>
      if c = 0 then (.error .noPoePortsCount, [.getPoePortNum])
      else if port_number > (c : Int) then (.error .portTooLarge, [.getPoePortNum])
      else
        let pstate : Nat := if enabled then 2 else 1
        match priority with
        | .unknownVal => (.error .invalidPriority, [.getPoePortNum])
        | .known pr =>
          let ppriority := _POE_PRIORITIES_SET_MAP pr
          match power_limit with
          | .enumVal l =>
            let pl := _POE_POWER_LIMITS_SET_MAP l
            let payload : PoePostPayload :=
              ⟨pstate, ppriority, pl.1, pl.2, port_number⟩
            (.ok payload, [.getPoePortNum, .post payload])
          | .floatVal w =>
            -- `if 0.1 <= power_limit <= 30.0:  # hardcoded in Tp-Link javascript`
            if 1/10 ≤ w ∧ w ≤ 30 then
              let payload : PoePostPayload :=
                ⟨pstate, ppriority, 6, .numExtra w, port_number⟩
              (.ok payload, [.getPoePortNum, .post payload])
            else (.error .powerLimitOutOfRange, [.getPoePortNum])
          | .otherVal => (.error .invalidPowerLimit, [.getPoePortNum])

/-! ## Coordinator state and read accessors (`update_coordinator.py`) -/

/-- `PortState` — `classes.py` is not among the provided sources; fields
follow the constructor call in `get_port_states` and spec §3 (speed
enums are carried as their numeric wire codes). -/
structure PortState where
  number : Nat
  speed_config : Nat
  speed_actual : Nat
  enabled : Bool
  flow_control_config : Bool
  flow_control_actual : Bool
  port_based_vlanid : Option Nat
  pvid_1q_vlanid : Option Nat
deriving DecidableEq, Repr

/-- Device-wide PoE state, tenths-of-a-watt scaled to watts (spec §3). -/
structure PoeState where
  power_limit : ℚ
  power_remain : ℚ
  power_limit_min : ℚ
  power_limit_max : ℚ
  power_consumption : ℚ
deriving DecidableEq, Repr

/-- Enum-or-float per-port power limit (spec §9: tagged variant). -/
inductive PortLimitVal
  | ofEnum (l : PoePowerLimit)
  | custom (w : ℚ)
deriving DecidableEq, Repr

/-- Per-port PoE state — fields follow the constructor call in
`get_port_poe_states` and spec §3 (`power_status`/`pd_class` carried as
numeric wire codes, `classes.py` being absent). -/
structure PortPoeState where
  number : Nat
  enabled : Bool
  priority : PoePriority
  current : ℚ
  voltage : ℚ
  power_limit : PortLimitVal
  power_status : Nat
  pd_class : Option Nat
  power : ℚ
deriving DecidableEq, Repr

/-- `TpLinkSystemInfo` as filled by `get_device_info` (every field may be
`None`). -/
structure TpLinkSystemInfo where
  name : Option String
  mac : Option String
  ip : Option String
  netmask : Option String
  gateway : Option String
  firmware : Option String
  hardware : Option String
deriving DecidableEq, Repr

/-- The coordinator's cached model: `_switch_info`, `_port_states`,
`_port_poe_states`, `_poe_state`, `_port_based_vlan_enabled`,
`_port_based_vlans`, `_1q_vlan_enabled`, `_1q_vlans` (the last renamed
`q1_…` because a Lean name cannot start with a digit). -/
structure CoordinatorState where
  switch_info : Option TpLinkSystemInfo
  port_states : List PortState
  port_poe_states : List PortPoeState
  poe_state : Option PoeState
  port_based_vlan_enabled : Bool
  port_based_vlans : Option (List (Nat × PortBasedVLAN))
  q1_vlan_enabled : Bool
  q1_vlans : Option (List (Nat × IEEE1QVLAN))
deriving DecidableEq, Repr

/-- `ports_count` property: `len(self._port_states)`. -/
def ports_count (st : CoordinatorState) : Nat := st.port_states.length

/-- `ports_poe_count` property: `len(self._port_poe_states)`. -/
def ports_poe_count (st : CoordinatorState) : Nat := st.port_poe_states.length

/-- `get_port_state`: guarded read of `_port_states[number - 1]`. -/
def get_port_state (st : CoordinatorState) (number : Int) : Option PortState :=
  if number > (ports_count st : Int) ∨ number < 1 then none
  else st.port_states.get? (number.toNat - 1)

/-- `get_port_poe_state`: guarded read of `_port_poe_states[number - 1]`. -/
def get_port_poe_state (st : CoordinatorState) (number : Int) : Option PortPoeState :=
  if number > (ports_poe_count st : Int) ∨ number < 1 then none
  else st.port_poe_states.get? (number.toNat - 1)

/-- `get_port_based_vlan`: guarded read of
`_port_states[number - 1].port_based_vlanid`. -/
def get_port_based_vlan (st : CoordinatorState) (number : Int) : Option Nat :=
  if number > (ports_count st : Int) ∨ number < 1 then none
  else
    match st.port_states.get? (number.toNat - 1) with
    | some p => p.port_based_vlanid
    | none => none

/-- `get_port_1q_pvid`: guarded read of
`_port_states[number - 1].pvid_1q_vlanid`. -/
def get_port_1q_pvid (st : CoordinatorState) (number : Int) : Option Nat :=
  if number > (ports_count st : Int) ∨ number < 1 then none
  else
    match st.port_states.get? (number.toNat - 1) with
    | some p => p.pvid_1q_vlanid
    | none => none

/-! ## Device client mutating calls (`tplink_api.py`)

Each mutating HTTP request is represented by the query it determines. -/

/-- The device-mutating HTTP requests the client can issue. -/
inductive DeviceCall
  | delPortBasedVlan (vid : Nat)
  | setPortBasedVlan (vid : Nat) (ports : List Nat)
  | set1qUntagVlan (vid : Nat) (ungtag_ports tag_ports notmem_ports : List Nat)
  | set1qPortPvid (pbm : Nat) (pvid : Nat)
deriving DecidableEq, Repr

/-- `set_port_based_vlan(vlanid, port_list)`: `vid=…&selPorts=…&…&pvlan_add=Apply`. -/
def set_port_based_vlan (vlanid : Nat) (port_list : List Nat) : DeviceCall :=
  .setPortBasedVlan vlanid port_list

/-- `del_port_based_vlan(vlanid)`: `selVlans=…&pvlan_del=Delete`. -/
def del_port_based_vlan (vlanid : Nat) : DeviceCall :=
  .delPortBasedVlan vlanid

/-- `set_1q_untag_vlan(vlanid, ungtag_ports, tag_ports, notmem_ports)`:
`vid=…&selType_<p>=0/1/2&…&qvlan_add=Add%2FModify`. -/
def set_1q_untag_vlan (vlanid : Nat) (ungtag_ports tag_ports notmem_ports : List Nat) :
    DeviceCall :=
  .set1qUntagVlan vlanid ungtag_ports tag_ports notmem_ports

/-- `set_1q_port_pvid(number, pvid)`: the port is encoded as the
single-bit mask `pbm = str(pow(2, number - 1))`. -/
def set_1q_port_pvid (number pvid : Nat) : DeviceCall :=
  .set1qPortPvid (2 ^ (number - 1)) pvid

/-! ## Reconciliation coordinator — port-based VLAN move

`async_set_port_based_vlan(port_id, vlan_name)`; `vlan_name` is
`f"VLAN-{id}"` (see `select.py`) and is modelled by the already-parsed
`new_vlanid`.  The functions below are written for `port_id ≥ 1` (Python
negative indexing of a bogus 0 input is not modelled); an uncaught
exception is modelled as `.error ()`, discarding whatever partial
mutation preceded it. -/

/-- The common final block of `async_set_port_based_vlan`: under
`len(self._port_states) >= index`, set the port's cached VLAN id and
overwrite `self._port_based_vlans[new_vlanid].ports` with
`new_vlan_ports` (KeyError if `new_vlanid` is not a cached key, IndexError
if `index == len(self._port_states)`). -/
def pbMoveTail (st : CoordinatorState) (d : List (Nat × PortBasedVLAN))
    (calls : List DeviceCall) (port_id new_vlanid : Nat) (new_vlan_ports : List Nat) :
    Except Unit (CoordinatorState × List DeviceCall) :=
  let index := port_id - 1
  if index ≤ st.port_states.length then
    match st.port_states.get? index with
    | none => .error ()
    | some p =>
      match dictGet d (some new_vlanid) with
      | none => .error ()
      | some nv =>
        .ok ({ st with
                port_states :=
                  st.port_states.set index { p with port_based_vlanid := some new_vlanid },
                port_based_vlans :=
                  some (dictInsert d new_vlanid { nv with ports := new_vlan_ports }) },
              calls)
  else
    .ok ({ st with port_based_vlans := some d }, calls)

/-- `async_set_port_based_vlan`: decision table (delete the old VLAN /
resubmit the old VLAN without the port / submit the new VLAN with the
port prepended), then the cache-patching tail.  Returns the final state
and the ordered device calls. -/
def async_set_port_based_vlan (st : CoordinatorState) (port_id new_vlanid : Nat) :
    Except Unit (CoordinatorState × List DeviceCall) :=
  match st.port_states.get? (port_id - 1) with
  | none => .error ()   -- IndexError
  | some p =>
    let old_vlanid := p.port_based_vlanid
    match st.port_based_vlans with
    | none => .error ()   -- AttributeError: None.get
    | some d =>
      let old_vlan := dictGet d old_vlanid
      let del_action : Bool :=
        new_vlanid == 1 && old_vlanid != some 1 && old_vlan.isSome &&
          ((old_vlan.map (fun v => v.ports.length)).getD 0 == 1)
      let mod_old_action : Bool := !del_action && new_vlanid == 1
      if del_action then
        -- `old_vlan.isSome` holds here, so `old_vlanid` is a present key
        pbMoveTail st d [del_port_based_vlan (old_vlanid.getD 0)]
          port_id new_vlanid [port_id]
      else if mod_old_action then
        match old_vlanid, old_vlan with
        | some ovid, some ov =>
          if port_id ∈ ov.ports then
            let ov' := { ov with ports := ov.ports.erase port_id }
            let d' := dictInsert d ovid ov'
            match dictGet d' (some new_vlanid) with
            | none => .error ()   -- AttributeError: None.ports
            | some nv =>
              pbMoveTail st d' [set_port_based_vlan ovid ov'.ports]
                port_id new_vlanid (port_id :: nv.ports)
          else .error ()   -- ValueError: list.remove
        | _, _ => .error ()   -- AttributeError: None.ports.remove
      else
        match dictGet d (some new_vlanid) with
        | none =>
          let d' := dictInsert d new_vlanid ⟨new_vlanid, [port_id]⟩
          pbMoveTail st d' [set_port_based_vlan new_vlanid [port_id]]
            port_id new_vlanid [port_id]
        | some nv =>
          pbMoveTail st d [set_port_based_vlan new_vlanid (port_id :: nv.ports)]
            port_id new_vlanid (port_id :: nv.ports)

/-! ## Reconciliation coordinator — 802.1Q PVID move

`async_set_untag_1q_vlan` interleaves cache mutation and device calls;
the run is recorded as a trace of events so the claimed
mutations-before-calls ordering is expressible. -/

/-- One observable step of `async_set_untag_1q_vlan`: a cache mutation
(the port's pvid field, or one VLAN record after one Python statement)
or a device call. -/
inductive QEvent
  | cachePvid (port : Nat) (pvid : Nat)
  | cacheVlan (vid : Nat) (v : IEEE1QVLAN)
  | call (c : DeviceCall)
deriving DecidableEq, Repr

/-- Whether an event is a device call. -/
def QEvent.isCall : QEvent → Bool
  | .call _ => true
  | _ => false

/-- The device calls of a trace, in order. -/
def deviceCallsOf (evs : List QEvent) : List DeviceCall :=
  evs.filterMap (fun e => match e with | .call c => some c | _ => none)

/-- A trace in which every cache mutation precedes every device call. -/
def cacheMutationsPrecedeCalls (evs : List QEvent) : Bool :=
  (evs.dropWhile (fun e => ! e.isCall)).all (fun e => e.isCall)

/-- `async_set_untag_1q_vlan`: patch the cache (pvid field, old VLAN's
untagged→not-member, new VLAN's not-member→untagged) under the
`len(self._port_states) >= index` guard, then issue the three device
calls: new VLAN triple, old VLAN triple, PVID bit. -/
def async_set_untag_1q_vlan (st : CoordinatorState) (port_id new_vlanid : Nat) :
    Except Unit (CoordinatorState × List QEvent) :=
  match st.port_states.get? (port_id - 1) with
  | none => .error ()   -- IndexError
  | some p =>
    let old_vlanid := p.pvid_1q_vlanid
    let index := port_id - 1
    match ((if index ≤ st.port_states.length then
            match st.q1_vlans with
            | none => .error ()   -- TypeError: None is not subscriptable
            | some d =>
              match old_vlanid, dictGet d old_vlanid with
              | some ovid, some ov =>
                if port_id ∈ ov.ungtag_ports then
                  let ov1 := { ov with ungtag_ports := ov.ungtag_ports.erase port_id }
                  let d1 := dictInsert d ovid ov1
                  let ov2 := { ov1 with notmem_ports := ov1.notmem_ports ++ [port_id] }
                  let d2 := dictInsert d1 ovid ov2
                  match dictGet d2 (some new_vlanid) with
                  | none => .error ()   -- KeyError
                  | some nv =>
                    let nv1 := { nv with ungtag_ports := nv.ungtag_ports ++ [port_id] }
                    let d3 := dictInsert d2 new_vlanid nv1
                    if port_id ∈ nv1.notmem_ports then
                      let nv2 := { nv1 with notmem_ports := nv1.notmem_ports.erase port_id }
                      let d4 := dictInsert d3 new_vlanid nv2
                      .ok ({ st with
                              port_states :=
                                st.port_states.set index { p with pvid_1q_vlanid := some new_vlanid },
                              q1_vlans := some d4 },
                            [QEvent.cachePvid port_id new_vlanid, .cacheVlan ovid ov1,
                             .cacheVlan ovid ov2, .cacheVlan new_vlanid nv1,
                             .cacheVlan new_vlanid nv2])
                    else .error ()   -- ValueError: list.remove
                else .error ()   -- ValueError: list.remove
              | _, _ => .error ()   -- KeyError
           else .ok (st, [])) : Except Unit (CoordinatorState × List QEvent)) with
    | .error e => .error e
    | .ok (st', evs) =>
      match st'.q1_vlans with
      | none => .error ()   -- AttributeError: None.get
      | some dfin =>
        match dictGet dfin (some new_vlanid) with
        | none => .error ()   -- AttributeError: None.ungtag_ports
        | some nv' =>
          match old_vlanid, dictGet dfin old_vlanid with
          | some ovid, some ov' =>
            .ok (st', evs ++
              [QEvent.call (set_1q_untag_vlan new_vlanid
                  nv'.ungtag_ports nv'.tag_ports nv'.notmem_ports),
               QEvent.call (set_1q_untag_vlan ovid
                  ov'.ungtag_ports ov'.tag_ports ov'.notmem_ports),
               QEvent.call (set_1q_port_pvid port_id new_vlanid)])
          | _, _ => .error ()   -- AttributeError

/-! ## Refresh cycle (`async_update`)

The six sub-fetch outcomes are supplied as an environment; each
`_update_*` method is embedded separately, mirroring its own
try/except (or, for `_update_switch_info`, the lack of one). -/

/-- Outcomes of the six sub-fetches of one refresh cycle (an `.error ()`
models the underlying fetch raising). -/
structure FetchEnv where
  switch_info : Except Unit TpLinkSystemInfo
  port_states : Except Unit (List PortState)
  poe_available : Bool
  poe_state : Except Unit (Option PoeState)
  port_poe_states : Except Unit (List PortPoeState)
  pb_vlan_info : Except Unit (Option (List Nat × List (Nat × PortBasedVLAN)))
  q1_vlan_info : Except Unit (Option (List Nat × List (Nat × IEEE1QVLAN)))

/-- `_update_switch_info` has no try/except: a fetch failure propagates. -/
def update_switch_info (env : FetchEnv) (st : CoordinatorState) :
    Except Unit CoordinatorState :=
  match env.switch_info with
  | .error e => .error e
  | .ok i => .ok { st with switch_info := some i }

/-- `_update_port_states`: a failure is caught and degrades the list to `[]`. -/
def update_port_states (env : FetchEnv) (st : CoordinatorState) : CoordinatorState :=
  match env.port_states with
  | .ok l => { st with port_states := l }
  | .error _ => { st with port_states := [] }

/-- `_update_poe_state`: skipped without the PoE feature; a failure is
caught and the previous cached value is retained (the except branch only
logs). -/
def update_poe_state (env : FetchEnv) (st : CoordinatorState) : CoordinatorState :=
  if env.poe_available = false then st
  else
    match env.poe_state with
    | .ok v => { st with poe_state := v }
    | .error _ => st

/-- `_update_port_poe_states`: skipped without the PoE feature; a failure
is caught and degrades the list to `[]`. -/
def update_port_poe_states (env : FetchEnv) (st : CoordinatorState) : CoordinatorState :=
  if env.poe_available = false then st
  else
    match env.port_poe_states with
    | .ok l => { st with port_poe_states := l }
    | .error _ => { st with port_poe_states := [] }

/-- `_update_port_based_vlan_info`: a falsy result disables the feature
and nulls the per-port ids; a caught exception (including an IndexError
while distributing `vlan_info[port.number - 1]`) nulls the per-port ids
and the table but leaves the enabled flag as it was. -/
def update_port_based_vlan_info (env : FetchEnv) (st : CoordinatorState) :
    CoordinatorState :=
  match env.pb_vlan_info with
  | .error _ =>
    { st with
        port_states := st.port_states.map (fun p => { p with port_based_vlanid := none }),
        port_based_vlans := none }
  | .ok none =>
    { st with
        port_based_vlan_enabled := false,
        port_states := st.port_states.map (fun p => { p with port_based_vlanid := none }),
        port_based_vlans := none }
  | .ok (some (vlan_info, vlans)) =>
    if vlan_info = [] ∨ vlans = [] then
      { st with
          port_based_vlan_enabled := false,
          port_states := st.port_states.map (fun p => { p with port_based_vlanid := none }),
          port_based_vlans := none }
    else if st.port_states.all (fun p => decide (p.number - 1 < vlan_info.length)) then
      { st with
          port_based_vlan_enabled := true,
          port_states :=
            st.port_states.map (fun p =>
              { p with port_based_vlanid := vlan_info.get? (p.number - 1) }),
          port_based_vlans := some vlans }
    else
      { st with
          port_states := st.port_states.map (fun p => { p with port_based_vlanid := none }),
          port_based_vlans := none }

/-- `_update_1q_vlan_info`: same shape as the port-based variant, for the
pvid field and the 802.1Q table. -/
def update_1q_vlan_info (env : FetchEnv) (st : CoordinatorState) : CoordinatorState :=
  match env.q1_vlan_info with
  | .error _ =>
    { st with
        port_states := st.port_states.map (fun p => { p with pvid_1q_vlanid := none }),
        q1_vlans := none }
  | .ok none =>
    { st with
        q1_vlan_enabled := false,
        port_states := st.port_states.map (fun p => { p with pvid_1q_vlanid := none }),
        q1_vlans := none }
  | .ok (some (vlan_info, vlans)) =>
    if vlan_info = [] ∨ vlans = [] then
      { st with
          q1_vlan_enabled := false,
          port_states := st.port_states.map (fun p => { p with pvid_1q_vlanid := none }),
          q1_vlans := none }
    else if st.port_states.all (fun p => decide (p.number - 1 < vlan_info.length)) then
      { st with
          q1_vlan_enabled := true,
          port_states :=
            st.port_states.map (fun p =>
              { p with pvid_1q_vlanid := vlan_info.get? (p.number - 1) }),
          q1_vlans := some vlans }
    else
      { st with
          port_states := st.port_states.map (fun p => { p with pvid_1q_vlanid := none }),
          q1_vlans := none }

/-- `async_update`: the six sub-updates in source order; only the
switch-info one can propagate a failure and abort the rest. -/
def async_update (env : FetchEnv) (st : CoordinatorState) :
    Except Unit CoordinatorState :=
  match update_switch_info env st with
  | .error e => .error e
  | .ok st1 =>
    .ok (update_1q_vlan_info env
          (update_port_based_vlan_info env
            (update_port_poe_states env
              (update_poe_state env
                (update_port_states env st1)))))

/-! ## Helper lemmas shared by the claim theorems -/

/-- `List.find?` characterised positionally: either the predicate fails
everywhere, or the result sits at an index before which the predicate
fails everywhere. -/
theorem find?_first {α : Type} (p : α → Bool) (l : List α) :
    (l.find? p = none ∧ ∀ x ∈ l, p x = false) ∨
    (∃ i x, l.get? i = some x ∧ l.find? p = some x ∧ p x = true ∧
      ∀ j y, j < i → l.get? j = some y → p y = false) := by
  induction l with
  | nil => left; exact ⟨rfl, by simp⟩
  | cons hd tl ih =>
    cases hph : p hd with
    | true =>
      right
      exact ⟨0, hd, rfl, List.find?_cons_of_pos tl hph, hph, fun j y hj => by omega⟩
    | false =>
      rcases ih with ⟨hn, hall⟩ | ⟨i, x, hget, hfind, hpx, hbefore⟩
      · left
        refine ⟨?_, ?_⟩
        · rw [List.find?_cons_of_neg tl (by simp [hph]), hn]
        · intro x hx
          rcases List.mem_cons.mp hx with rfl | hx
          · exact hph
          · exact hall x hx
      · right
        refine ⟨i + 1, x, by simpa using hget,
          by rw [List.find?_cons_of_neg tl (by simp [hph])]; exact hfind, hpx, ?_⟩
        intro j y hj hget'
        cases j with
        | zero =>
          simp only [List.get?] at hget'
          cases hget'
          exact hph
        | succ j =>
          exact hbefore j y (by omega) (by simpa using hget')

/-- `buildPBTable` succeeds exactly when no mask is zero. -/
theorem buildPBTable_ok (pairs : List (Nat × Nat))
    (hz : ∀ pr ∈ pairs, pr.2 ≠ 0) (acc : List (Nat × PortBasedVLAN)) :
    ∃ t, buildPBTable pairs acc = .ok t := by
  induction pairs generalizing acc with
  | nil => exact ⟨acc, rfl⟩
  | cons hd tl ih =>
    obtain ⟨vid, mbr⟩ := hd
    have hm : mbr ≠ 0 := hz (vid, mbr) (by simp)
    simp only [buildPBTable, hm, if_false, if_neg hm]
    exact ih (fun pr hpr => hz pr (List.mem_cons_of_mem _ hpr)) _

/-! ## Claim C4 -/

/-- C4, as written, is refuted at mask `m = 256` with port count `n = 8`:
the builder reports member port 9 for an 8-port device (bits beyond the
port count are not ignored), and the round trip returns `256`, not
`256 &&& ((1 <<< 8) - 1) = 0`. -/
theorem C4_counterexample :
    encode_membership (decodeMembers 256) ≠ 256 &&& ((1 <<< 8) - 1) ∧
    get_port_based_vlan_info ⟨true, 8, [2], [256]⟩ =
      .ok (some ([1, 1, 1, 1, 1, 1, 1, 1], [(2, ⟨2, [9]⟩)])) := by
  exact ⟨by decide, rfl⟩

/-- C4 (amended): for every nonzero mask the decode reports exactly the
set bits of the mask — independently of any port count — so re-encoding
returns the mask itself, not its restriction to the port count. -/
theorem C4_theorem (m : Nat) (hm : 1 ≤ m) :
    encode_membership (decodeMembers m) = m := by
  clear hm
  apply Nat.eq_of_testBit_eq
  intro j
  rw [testBit_encode_membership]
  cases hbit : m.testBit j with
  | true =>
    have hmem : (j + 1) ∈ decodeMembers m :=
      mem_decodeMembers.mpr ⟨by omega, by simpa using hbit⟩
    rw [List.any_eq_true]
    exact ⟨j + 1, hmem, by simp⟩
  | false =>
    rw [List.any_eq_false]
    intro x hx
    have hx' := mem_decodeMembers.mp hx
    simp only [decide_eq_true_eq]
    intro hjx
    rw [hjx] at hbit
    rw [hx'.2] at hbit
    cases hbit

/-- C4 witness: the amended round trip at the concrete mask 5. -/
theorem C4_witness : 1 ≤ 5 ∧ encode_membership (decodeMembers 5) = 5 :=
  ⟨by decide, C4_theorem 5 (by decide)⟩

/-! ## Claim C5 -/

/-- C5: at the failing input (a port-based VLAN whose membership mask is
zero) the source computes `math.log(0, 2)`, which raises `ValueError` and
aborts `get_port_based_vlan_info`; the 802.1Q variant guards the same
scan with `if untagMbr != 0` and decodes the same zero mask to empty
lists without error.  The claim (and spec §4.1/§8) say both variants
decode a zero mask to the empty set without error — the port-based code
is the slip. -/
theorem C5_theorem :
    get_port_based_vlan_info ⟨true, 8, [5], [0]⟩ = .error () ∧
    get_1q_vlan_info ⟨true, 8, [5], [0], [0]⟩ =
      some ([1, 1, 1, 1, 1, 1, 1, 1], [(5, ⟨5, [], [], [1, 2, 3, 4, 5, 6, 7]⟩)]) :=
  ⟨rfl, rfl⟩

/-! ## Claim C6 -/

/-- C6: whenever the port-based builder produces output, every port
`1..N` gets exactly one VLAN id: the first VLAN in declaration order
whose mask bit `port - 1` is set, or VLAN 1 when no mask claims the
port — first match wins even for overlapping masks. -/
theorem C6_theorem (d : PVlanData) (hs : d.state = true) (hN : d.portNum ≠ 0)
    (hv : d.vids ≠ []) (hm : d.mbrs ≠ []) (hz : ∀ m ∈ d.mbrs, m ≠ 0)
    (hlen : d.vids.length ≤ d.mbrs.length) :
    ∃ ports table, get_port_based_vlan_info d = .ok (some (ports, table)) ∧
      ports.length = d.portNum ∧
      ∀ k, k < d.portNum →
        ∃ v, ports.get? k = some v ∧
          ((∃ i vm, (d.vids.zip d.mbrs).get? i = some vm ∧
              vm.2 &&& 2 ^ k ≠ 0 ∧ v = vm.1 ∧
              ∀ j wm, j < i → (d.vids.zip d.mbrs).get? j = some wm →
                wm.2 &&& 2 ^ k = 0) ∨
            (v = 1 ∧ ∀ vm ∈ d.vids.zip d.mbrs, vm.2 &&& 2 ^ k = 0)) := by
  have hzz : ∀ pr ∈ d.vids.zip d.mbrs, pr.2 ≠ 0 := by
    intro pr hpr
    obtain ⟨a, b⟩ := pr
    exact hz b (List.of_mem_zip hpr).2
  obtain ⟨t, ht⟩ := buildPBTable_ok (d.vids.zip d.mbrs) hzz []
  refine ⟨(List.range' 1 d.portNum).map (firstVlanOf d.vids d.mbrs), t, ?_, by simp, ?_⟩
  · unfold get_port_based_vlan_info
    simp only [hs, hN, hv, hm, ht]
    simp [hs, hN, hv, hm]
  · intro k hk
    refine ⟨firstVlanOf d.vids d.mbrs (1 + k), ?_, ?_⟩
    · rw [List.get?_eq_getElem?, List.getElem?_map, List.getElem?_range' 1 1 hk]
      simp
    · unfold firstVlanOf
      have hport : 1 + k - 1 = k := by omega
      rw [hport]
      rcases find?_first (fun vm => vm.2 &&& (1 <<< k) != 0) (d.vids.zip d.mbrs) with
        ⟨hfn, hall⟩ | ⟨i, x, hget, hfind, hpx, hbefore⟩
      · rw [hfn]
        right
        refine ⟨rfl, ?_⟩
        intro vm hvm
        have := hall vm hvm
        simpa [Nat.one_shiftLeft] using this
      · rw [hfind]
        left
        refine ⟨i, x, hget, ?_, rfl, ?_⟩
        · simpa [Nat.one_shiftLeft] using hpx
        · intro j wm hj hget'
          have := hbefore j wm hj hget'
          simpa [Nat.one_shiftLeft] using this

/-- C6 witness: 3-port device, overlapping masks `0b110` (VLAN 10) and
`0b010` (VLAN 20): port 2 is claimed by both and resolves to VLAN 10,
port 1 is claimed by none and resolves to VLAN 1. -/
theorem C6_witness :
    ∃ ports table,
      get_port_based_vlan_info ⟨true, 3, [10, 20], [6, 2]⟩ = .ok (some (ports, table)) ∧
      ports.length = 3 ∧
      ∀ k, k < 3 →
        ∃ v, ports.get? k = some v ∧
          ((∃ i vm, (([10, 20] : List Nat).zip [6, 2]).get? i = some vm ∧
              vm.2 &&& 2 ^ k ≠ 0 ∧ v = vm.1 ∧
              ∀ j wm, j < i → (([10, 20] : List Nat).zip [6, 2]).get? j = some wm →
                wm.2 &&& 2 ^ k = 0) ∨
            (v = 1 ∧ ∀ vm ∈ ([10, 20] : List Nat).zip [6, 2], vm.2 &&& 2 ^ k = 0)) :=
  C6_theorem ⟨true, 3, [10, 20], [6, 2]⟩ rfl (by decide) (by decide) (by decide)
    (by decide) (by decide)

/-! ## Claim C7 -/

/-- C7: the partition invariant fails on the code.  At port count 8 with
one VLAN of empty untagged/tagged masks, the not-member complement is
taken over the hardcoded `range(1, 8)` — ports 1..7 — so port 8 (in
range on this 8-port device) lands in none of the three sets. -/
theorem C7_theorem :
    ∃ qports v,
      get_1q_vlan_info ⟨true, 8, [2], [0], [0]⟩ = some (qports, [(2, v)]) ∧
      (8 ∉ v.ungtag_ports ∧ 8 ∉ v.tag_ports ∧ 8 ∉ v.notmem_ports) :=
  ⟨[1, 1, 1, 1, 1, 1, 1, 1], ⟨2, [], [], [1, 2, 3, 4, 5, 6, 7]⟩, rfl,
    by decide, by decide, by decide⟩

/-! ## Claim C8 -/

/-- C8, as written, is refuted on the call-order: an invalid priority is
rejected only after `set_port_poe_settings` has already issued the GET
that reads `poe_port_num` from the device, so the rejection does not
happen "before any device call" (it does happen before the only
state-mutating call, the POST). -/
theorem C8_counterexample :
    set_port_poe_settings true (some 8) 1 true .unknownVal (.enumVal .AUTO) =
      (.error .invalidPriority, [.getPoePortNum]) ∧
    (set_port_poe_settings true (some 8) 1 true .unknownVal (.enumVal .AUTO)).2 ≠ [] := by
  refine ⟨rfl, ?_⟩
  intro h
  rw [show (set_port_poe_settings true (some 8) 1 true .unknownVal
      (.enumVal .AUTO)).2 = [.getPoePortNum] from rfl] at h
  cases h

/-- C8 (amended): with the PoE feature available and the port in range,
the parameter mapping is total over its declared domain — priority
HIGH→1, MIDDLE→2, LOW→3 and any other priority fails; enum power limits
map through the fixed 5-entry table; a float is accepted iff it lies in
[0.1, 30.0] and maps to wire code 6 with the raw value; any other value
fails — and every failure is reported before the state-mutating POST
(though after the GET that reads the port count). -/
theorem C8_theorem (c : Nat) (hc : c ≠ 0) (pn : Int) (h1 : 1 ≤ pn)
    (h2 : pn ≤ (c : Int)) (enabled : Bool) :
    (∀ pr l, set_port_poe_settings true (some c) pn enabled (.known pr) (.enumVal l) =
      (.ok ⟨if enabled then 2 else 1, _POE_PRIORITIES_SET_MAP pr,
            (_POE_POWER_LIMITS_SET_MAP l).1, (_POE_POWER_LIMITS_SET_MAP l).2, pn⟩,
       [.getPoePortNum,
        .post ⟨if enabled then 2 else 1, _POE_PRIORITIES_SET_MAP pr,
               (_POE_POWER_LIMITS_SET_MAP l).1, (_POE_POWER_LIMITS_SET_MAP l).2, pn⟩])) ∧
    (_POE_PRIORITIES_SET_MAP .HIGH = 1 ∧ _POE_PRIORITIES_SET_MAP .MIDDLE = 2 ∧
      _POE_PRIORITIES_SET_MAP .LOW = 3) ∧
    (∀ pr w, 1/10 ≤ w → w ≤ 30 →
      set_port_poe_settings true (some c) pn enabled (.known pr) (.floatVal w) =
      (.ok ⟨if enabled then 2 else 1, _POE_PRIORITIES_SET_MAP pr, 6, .numExtra w, pn⟩,
       [.getPoePortNum,
        .post ⟨if enabled then 2 else 1, _POE_PRIORITIES_SET_MAP pr, 6, .numExtra w, pn⟩])) ∧
    (∀ pr w, ¬(1/10 ≤ w ∧ w ≤ 30) →
      set_port_poe_settings true (some c) pn enabled (.known pr) (.floatVal w) =
      (.error .powerLimitOutOfRange, [.getPoePortNum])) ∧
    (∀ pl, set_port_poe_settings true (some c) pn enabled .unknownVal pl =
      (.error .invalidPriority, [.getPoePortNum])) ∧
    (∀ pr, set_port_poe_settings true (some c) pn enabled (.known pr) .otherVal =
      (.error .invalidPowerLimit, [.getPoePortNum])) := by
  have hlt : ¬ pn < 1 := by omega
  have hgt : ¬ pn > (c : Int) := by omega
  refine ⟨?_, ⟨rfl, rfl, rfl⟩, ?_, ?_, ?_, ?_⟩
  · intro pr l
    simp [set_port_poe_settings, hlt, hgt, hc]
  · intro pr w hw1 hw2
    have hcond : (1 : ℚ)/10 ≤ w ∧ w ≤ 30 := ⟨hw1, hw2⟩
    simp only [set_port_poe_settings]
    rw [if_neg (show ¬ (true = false) by simp), if_neg hlt, if_neg hc, if_neg hgt,
      if_pos hcond]
  · intro pr w hw
    simp only [set_port_poe_settings]
    rw [if_neg (show ¬ (true = false) by simp), if_neg hlt, if_neg hc, if_neg hgt,
      if_neg hw]
  · intro pl
    simp [set_port_poe_settings, hlt, hgt, hc]
  · intro pr
    simp [set_port_poe_settings, hlt, hgt, hc]

/-- C8 witness: the amended mapping at port 3 of an 8-port device,
priority HIGH with the AUTO limit class. -/
theorem C8_witness :
    set_port_poe_settings true (some 8) 3 true (.known .HIGH) (.enumVal .AUTO) =
      (.ok ⟨2, 1, 1, .noExtra, 3⟩, [.getPoePortNum, .post ⟨2, 1, 1, .noExtra, 3⟩]) := by
  have h := (C8_theorem 8 (by decide) 3 (by decide) (by decide) true).1
    PoePriority.HIGH PoePowerLimit.AUTO
  simpa [_POE_PRIORITIES_SET_MAP, _POE_POWER_LIMITS_SET_MAP] using h

/-! ## Claim C1 -/

/-- The claim's own scenario: 3 ports, VLAN 5 = {3} only, VLAN 1 = {1, 2};
port 3 is moved back to VLAN 1. -/
def c1State : CoordinatorState :=
  { switch_info := none
    port_states :=
      [⟨1, 0, 0, true, false, false, some 1, none⟩,
       ⟨2, 0, 0, true, false, false, some 1, none⟩,
       ⟨3, 0, 0, true, false, false, some 5, none⟩]
    port_poe_states := []
    poe_state := none
    port_based_vlan_enabled := true
    port_based_vlans := some [(1, ⟨1, [1, 2]⟩), (5, ⟨5, [3]⟩)]
    q1_vlan_enabled := false
    q1_vlans := none }

/-- C1, as written, is refuted on the cache effect: moving port 3 from
singleton VLAN 5 back to VLAN 1 issues exactly the one delete call, but
VLAN 5 is still present in the cached VLAN table afterwards (the delete
branch never removes the dict entry). -/
theorem C1_counterexample :
    Except.map (fun r => (dictGet (r.1.port_based_vlans.getD []) (some 5), r.2))
        (async_set_port_based_vlan c1State 3 1) =
      .ok (some ⟨5, [3]⟩, [DeviceCall.delPortBasedVlan 5]) := rfl

/-- C1 (amended): for a port-based move of port P to VLAN 1 with the old
VLAN A ≠ 1 a singleton {P}, exactly one device call is issued — delete
VLAN A, with no resubmission of A and no call for VLAN 1 — and in the
cache P's VLAN id becomes 1; VLAN A however remains in the cached VLAN
table (only the device-side VLAN is deleted), and VLAN 1's cached member
list is overwritten to exactly [P]. -/
theorem C1_theorem (st : CoordinatorState) (port_id A : Nat) (p : PortState)
    (d : List (Nat × PortBasedVLAN)) (av v1 : PortBasedVLAN)
    (hp : st.port_states.get? (port_id - 1) = some p)
    (hA : p.port_based_vlanid = some A)
    (hA1 : A ≠ 1)
    (hd : st.port_based_vlans = some d)
    (hav : dictGet d (some A) = some av)
    (hports : av.ports = [port_id])
    (h1 : dictGet d (some 1) = some v1) :
    ∃ st', async_set_port_based_vlan st port_id 1 =
        .ok (st', [del_port_based_vlan A]) ∧
      st'.port_states.get? (port_id - 1) =
        some { p with port_based_vlanid := some 1 } ∧
      ∃ d', st'.port_based_vlans = some d' ∧
        dictGet d' (some A) = some av ∧
        dictGet d' (some 1) = some { v1 with ports := [port_id] } := by
  have hidx : port_id - 1 < st.port_states.length := by
    rw [List.get?_eq_getElem?] at hp
    exact (List.getElem?_eq_some_iff.mp hp).1
  have hne : ((some A : Option Nat) != some 1) = true := by simp [hA1]
  have hlen : av.ports.length = 1 := by rw [hports]; rfl
  simp only [async_set_port_based_vlan, hp, hd, hA, hav, hne, hlen]
  simp only [Option.isSome_some, Option.map_some', Option.map_some, Option.getD_some,
    hlen, beq_self_eq_true, Bool.true_and, Bool.and_true, Bool.and_self,
    eq_self_iff_true, if_true]
  simp only [pbMoveTail, if_pos (show port_id - 1 ≤ st.port_states.length by omega),
    hp, h1, Option.getD_some]
  refine ⟨_, rfl, ?_, dictInsert d 1 { v1 with ports := [port_id] }, rfl, ?_, ?_⟩
  · rw [List.get?_eq_getElem?, List.getElem?_set_self hidx]
  · rw [dictGet_insert_ne d 1 A _ hA1]
    exact hav
  · exact dictGet_insert_self d 1 _

/-- C1 witness: the amended behaviour at the concrete scenario state. -/
theorem C1_witness :
    ∃ st', async_set_port_based_vlan c1State 3 1 = .ok (st', [del_port_based_vlan 5]) ∧
      st'.port_states.get? 2 = some ⟨3, 0, 0, true, false, false, some 1, none⟩ ∧
      ∃ d', st'.port_based_vlans = some d' ∧
        dictGet d' (some 5) = some ⟨5, [3]⟩ ∧
        dictGet d' (some 1) = some ⟨1, [3]⟩ :=
  C1_theorem c1State 3 5 ⟨3, 0, 0, true, false, false, some 5, none⟩
    [(1, ⟨1, [1, 2]⟩), (5, ⟨5, [3]⟩)] ⟨5, [3]⟩ ⟨1, [1, 2]⟩ rfl rfl (by decide) rfl rfl
    rfl rfl

/-! ## Claim C2 -/

/-- C2: for a move of port P to a non-default VLAN B ≠ 1, the coordinator
issues exactly one device call — submit VLAN B with member list [P]
prepended to B's existing members ([P] alone when B is not yet cached,
in which case B is first created locally with exactly [P]) — issues no
call that resubmits or deletes the old VLAN A, and sets P's cached
port-based VLAN id to B. -/
theorem C2_theorem (st : CoordinatorState) (port_id new_vlanid A : Nat) (p : PortState)
    (d : List (Nat × PortBasedVLAN))
    (hp : st.port_states.get? (port_id - 1) = some p)
    (hd : st.port_based_vlans = some d)
    (hB : new_vlanid ≠ 1)
    (hA : p.port_based_vlanid = some A)
    (hAB : A ≠ new_vlanid) :
    ∃ st',
      async_set_port_based_vlan st port_id new_vlanid =
        .ok (st', [set_port_based_vlan new_vlanid
          (port_id :: ((dictGet d (some new_vlanid)).map PortBasedVLAN.ports).getD [])]) ∧
      (∀ l, DeviceCall.setPortBasedVlan A l ∉
        [set_port_based_vlan new_vlanid
          (port_id :: ((dictGet d (some new_vlanid)).map PortBasedVLAN.ports).getD [])]) ∧
      DeviceCall.delPortBasedVlan A ∉
        [set_port_based_vlan new_vlanid
          (port_id :: ((dictGet d (some new_vlanid)).map PortBasedVLAN.ports).getD [])] ∧
      st'.port_states.get? (port_id - 1) =
        some { p with port_based_vlanid := some new_vlanid } ∧
      ∃ d' v', st'.port_based_vlans = some d' ∧
        dictGet d' (some new_vlanid) = some v' ∧
        v'.ports =
          port_id :: ((dictGet d (some new_vlanid)).map PortBasedVLAN.ports).getD [] := by
  have hidx : port_id - 1 < st.port_states.length := by
    rw [List.get?_eq_getElem?] at hp
    exact (List.getElem?_eq_some_iff.mp hp).1
  have hBfalse : (new_vlanid == 1) = false := by simp [hB]
  have hnotA : ∀ l, DeviceCall.setPortBasedVlan A l ∉
      [set_port_based_vlan new_vlanid
        (port_id :: ((dictGet d (some new_vlanid)).map PortBasedVLAN.ports).getD [])] := by
    intro l
    simp [set_port_based_vlan, hAB]
  have hnotDel : DeviceCall.delPortBasedVlan A ∉
      [set_port_based_vlan new_vlanid
        (port_id :: ((dictGet d (some new_vlanid)).map PortBasedVLAN.ports).getD [])] := by
    simp [set_port_based_vlan]
  simp only [async_set_port_based_vlan, hp, hd, hA, hBfalse, Bool.false_and,
    Bool.and_false, Bool.false_eq_true, if_false, Bool.not_false, Bool.true_and]
  cases hnv : dictGet d (some new_vlanid) with
  | none =>
    simp only [hnv, Option.map_none', Option.map_none, Option.getD_none] at hnotA hnotDel ⊢
    simp only [pbMoveTail, if_pos (show port_id - 1 ≤ st.port_states.length by omega),
      hp, dictGet_insert_self]
    refine ⟨_, rfl, hnotA, hnotDel, ?_, _, ⟨new_vlanid, [port_id]⟩, rfl,
      dictGet_insert_self _ _ _, ?_⟩
    · rw [List.get?_eq_getElem?, List.getElem?_set_self hidx]
    · simp [hnv]
  | some nv =>
    simp only [hnv, Option.map_some', Option.map_some, Option.getD_some] at hnotA hnotDel ⊢
    simp only [pbMoveTail, if_pos (show port_id - 1 ≤ st.port_states.length by omega),
      hp, hnv]
    refine ⟨_, rfl, hnotA, hnotDel, ?_, _, { nv with ports := port_id :: nv.ports }, rfl,
      dictGet_insert_self _ _ _, ?_⟩
    · rw [List.get?_eq_getElem?, List.getElem?_set_self hidx]
    · simp [hnv]

/-- The claim's own scenario: 8-port switch, VLAN 1 = {1..8}; port 3 is
moved to the not-yet-existing VLAN 10. -/
def c2State : CoordinatorState :=
  { switch_info := none
    port_states :=
      [⟨1, 0, 0, true, false, false, some 1, none⟩,
       ⟨2, 0, 0, true, false, false, some 1, none⟩,
       ⟨3, 0, 0, true, false, false, some 1, none⟩,
       ⟨4, 0, 0, true, false, false, some 1, none⟩,
       ⟨5, 0, 0, true, false, false, some 1, none⟩,
       ⟨6, 0, 0, true, false, false, some 1, none⟩,
       ⟨7, 0, 0, true, false, false, some 1, none⟩,
       ⟨8, 0, 0, true, false, false, some 1, none⟩]
    port_poe_states := []
    poe_state := none
    port_based_vlan_enabled := true
    port_based_vlans := some [(1, ⟨1, [1, 2, 3, 4, 5, 6, 7, 8]⟩)]
    q1_vlan_enabled := false
    q1_vlans := none }

/-- C2 witness: the scenario run — VLAN 10 created with exactly {3}, one
submit call for VLAN 10, no call for VLAN 1, port 3's cached id = 10. -/
theorem C2_witness :
    ∃ st',
      async_set_port_based_vlan c2State 3 10 =
        .ok (st', [set_port_based_vlan 10 [3]]) ∧
      (∀ l, DeviceCall.setPortBasedVlan 1 l ∉ [set_port_based_vlan 10 [3]]) ∧
      DeviceCall.delPortBasedVlan 1 ∉ [set_port_based_vlan 10 [3]] ∧
      st'.port_states.get? 2 = some ⟨3, 0, 0, true, false, false, some 10, none⟩ ∧
      ∃ d' v', st'.port_based_vlans = some d' ∧
        dictGet d' (some 10) = some v' ∧ v'.ports = [3] :=
  C2_theorem c2State 3 10 1 ⟨3, 0, 0, true, false, false, some 1, none⟩
    [(1, ⟨1, [1, 2, 3, 4, 5, 6, 7, 8]⟩)] rfl rfl (by decide) rfl (by decide)

/-! ## Claim C3 -/

/-- `dictGet_insert_ne` with the disequality in front, for use as a
(partially applied) rewrite rule. -/
theorem dictGet_insert_skip {α : Type} {k k' : Nat} (h : k' ≠ k)
    (d : List (Nat × α)) (v : α) :
    dictGet (dictInsert d k v) (some k') = dictGet d (some k') :=
  dictGet_insert_ne d k k' v h

/-- C3: an 802.1Q PVID move of port P from VLAN `old` to VLAN `new`
issues exactly three device calls, in order: (1) VLAN `new`'s triple
with P appended to untagged and erased from not-member, (2) VLAN `old`'s
triple with P erased from untagged and appended to not-member, (3) the
PVID set with the port encoded as the single-bit mask `2 ^ (P - 1)`; and
in the event trace every cache mutation (the pvid field and both VLAN
records) precedes every device call. -/
theorem C3_theorem (st : CoordinatorState) (port_id new_vlanid ovid : Nat)
    (p : PortState) (d : List (Nat × IEEE1QVLAN)) (ov nv : IEEE1QVLAN)
    (hp : st.port_states.get? (port_id - 1) = some p)
    (hold : p.pvid_1q_vlanid = some ovid)
    (hd : st.q1_vlans = some d)
    (hov : dictGet d (some ovid) = some ov)
    (hnv : dictGet d (some new_vlanid) = some nv)
    (hne : ovid ≠ new_vlanid)
    (hmemo : port_id ∈ ov.ungtag_ports)
    (hmemn : port_id ∈ nv.notmem_ports) :
    ∃ st' evs, async_set_untag_1q_vlan st port_id new_vlanid = .ok (st', evs) ∧
      deviceCallsOf evs =
        [set_1q_untag_vlan new_vlanid (nv.ungtag_ports ++ [port_id]) nv.tag_ports
          (nv.notmem_ports.erase port_id),
         set_1q_untag_vlan ovid (ov.ungtag_ports.erase port_id) ov.tag_ports
          (ov.notmem_ports ++ [port_id]),
         DeviceCall.set1qPortPvid (2 ^ (port_id - 1)) new_vlanid] ∧
      (deviceCallsOf evs).length = 3 ∧
      cacheMutationsPrecedeCalls evs = true ∧
      st'.port_states.get? (port_id - 1) =
        some { p with pvid_1q_vlanid := some new_vlanid } ∧
      ∃ d', st'.q1_vlans = some d' ∧
        dictGet d' (some ovid) =
          some { ov with
                  ungtag_ports := ov.ungtag_ports.erase port_id
                  notmem_ports := ov.notmem_ports ++ [port_id] } ∧
        dictGet d' (some new_vlanid) =
          some { nv with
                  ungtag_ports := nv.ungtag_ports ++ [port_id]
                  notmem_ports := nv.notmem_ports.erase port_id } := by
  have hidx : port_id - 1 < st.port_states.length := by
    rw [List.get?_eq_getElem?] at hp
    exact (List.getElem?_eq_some_iff.mp hp).1
  have hne2 : new_vlanid ≠ ovid := Ne.symm hne
  simp only [async_set_untag_1q_vlan, hp, hold, hd, hov,
    if_pos (show port_id - 1 ≤ st.port_states.length by omega),
    dictGet_insert_skip hne2, dictGet_insert_skip hne, dictGet_insert_self,
    hnv, hmemo, hmemn, if_true, eq_self_iff_true]
  refine ⟨_, _, rfl, rfl, rfl, rfl, ?_, _, rfl, ?_, ?_⟩
  · rw [List.get?_eq_getElem?, List.getElem?_set_self hidx]
  · simp only [dictGet_insert_skip hne, dictGet_insert_self]
  · simp only [dictGet_insert_self]

/-- A 2-port, two-VLAN 802.1Q state: VLAN 1 untagged {1, 2}, VLAN 20
not-member {1, 2}; port 2's PVID is 1. -/
def c3State : CoordinatorState :=
  { switch_info := none
    port_states :=
      [⟨1, 0, 0, true, false, false, none, some 1⟩,
       ⟨2, 0, 0, true, false, false, none, some 1⟩]
    port_poe_states := []
    poe_state := none
    port_based_vlan_enabled := false
    port_based_vlans := none
    q1_vlan_enabled := true
    q1_vlans := some [(1, ⟨1, [1, 2], [], []⟩), (20, ⟨20, [], [], [1, 2]⟩)] }

/-- C3 witness: moving port 2's PVID from VLAN 1 to VLAN 20 issues the
three calls in order with the PVID bit mask `2 ^ (2 - 1) = 2`, all cache
mutations first. -/
theorem C3_witness :
    ∃ st' evs, async_set_untag_1q_vlan c3State 2 20 = .ok (st', evs) ∧
      deviceCallsOf evs =
        [set_1q_untag_vlan 20 [2] [] [1],
         set_1q_untag_vlan 1 [1] [] [2],
         DeviceCall.set1qPortPvid 2 20] ∧
      (deviceCallsOf evs).length = 3 ∧
      cacheMutationsPrecedeCalls evs = true ∧
      st'.port_states.get? 1 = some ⟨2, 0, 0, true, false, false, none, some 20⟩ ∧
      ∃ d', st'.q1_vlans = some d' ∧
        dictGet d' (some 1) = some ⟨1, [1], [], [2]⟩ ∧
        dictGet d' (some 20) = some ⟨20, [2], [], [1]⟩ :=
  C3_theorem c3State 2 20 1 ⟨2, 0, 0, true, false, false, none, some 1⟩
    [(1, ⟨1, [1, 2], [], []⟩), (20, ⟨20, [], [], [1, 2]⟩)]
    ⟨1, [1, 2], [], []⟩ ⟨20, [], [], [1, 2]⟩ rfl rfl rfl rfl rfl (by decide)
    (by decide) (by decide)

/-! ## Claim C9 -/

theorem upd_ps_poe_state (env : FetchEnv) (st : CoordinatorState) :
    (update_port_states env st).poe_state = st.poe_state := by
  unfold update_port_states
  cases env.port_states <;> rfl

theorem upd_poe_port_states (env : FetchEnv) (st : CoordinatorState) :
    (update_poe_state env st).port_states = st.port_states := by
  unfold update_poe_state
  by_cases h : env.poe_available = false
  · rw [if_pos h]
  · rw [if_neg h]
    cases env.poe_state <;> rfl

theorem upd_poe_port_poe (env : FetchEnv) (st : CoordinatorState) :
    (update_poe_state env st).port_poe_states = st.port_poe_states := by
  unfold update_poe_state
  by_cases h : env.poe_available = false
  · rw [if_pos h]
  · rw [if_neg h]
    cases env.poe_state <;> rfl

theorem upd_pps_port_states (env : FetchEnv) (st : CoordinatorState) :
    (update_port_poe_states env st).port_states = st.port_states := by
  unfold update_port_poe_states
  by_cases h : env.poe_available = false
  · rw [if_pos h]
  · rw [if_neg h]
    cases env.port_poe_states <;> rfl

theorem upd_pps_poe_state (env : FetchEnv) (st : CoordinatorState) :
    (update_port_poe_states env st).poe_state = st.poe_state := by
  unfold update_port_poe_states
  by_cases h : env.poe_available = false
  · rw [if_pos h]
  · rw [if_neg h]
    cases env.port_poe_states <;> rfl

theorem upd_pb_poe_state (env : FetchEnv) (st : CoordinatorState) :
    (update_port_based_vlan_info env st).poe_state = st.poe_state := by
  unfold update_port_based_vlan_info
  cases henv : env.pb_vlan_info with
  | error e => rfl
  | ok o =>
    cases o with
    | none => rfl
    | some pr =>
      obtain ⟨a, b⟩ := pr
      dsimp only
      split_ifs <;> rfl

theorem upd_pb_port_poe (env : FetchEnv) (st : CoordinatorState) :
    (update_port_based_vlan_info env st).port_poe_states = st.port_poe_states := by
  unfold update_port_based_vlan_info
  cases henv : env.pb_vlan_info with
  | error e => rfl
  | ok o =>
    cases o with
    | none => rfl
    | some pr =>
      obtain ⟨a, b⟩ := pr
      dsimp only
      split_ifs <;> rfl

theorem upd_pb_ports_nil (env : FetchEnv) (st : CoordinatorState)
    (h : st.port_states = []) :
    (update_port_based_vlan_info env st).port_states = [] := by
  unfold update_port_based_vlan_info
  cases henv : env.pb_vlan_info with
  | error e => simp [h]
  | ok o =>
    cases o with
    | none => simp [h]
    | some pr =>
      obtain ⟨a, b⟩ := pr
      dsimp only
      split_ifs <;> simp [h]

theorem upd_q1_poe_state (env : FetchEnv) (st : CoordinatorState) :
    (update_1q_vlan_info env st).poe_state = st.poe_state := by
  unfold update_1q_vlan_info
  cases henv : env.q1_vlan_info with
  | error e => rfl
  | ok o =>
    cases o with
    | none => rfl
    | some pr =>
      obtain ⟨a, b⟩ := pr
      dsimp only
      split_ifs <;> rfl

theorem upd_q1_port_poe (env : FetchEnv) (st : CoordinatorState) :
    (update_1q_vlan_info env st).port_poe_states = st.port_poe_states := by
  unfold update_1q_vlan_info
  cases henv : env.q1_vlan_info with
  | error e => rfl
  | ok o =>
    cases o with
    | none => rfl
    | some pr =>
      obtain ⟨a, b⟩ := pr
      dsimp only
      split_ifs <;> rfl

theorem upd_q1_pb_vlans (env : FetchEnv) (st : CoordinatorState) :
    (update_1q_vlan_info env st).port_based_vlans = st.port_based_vlans := by
  unfold update_1q_vlan_info
  cases henv : env.q1_vlan_info with
  | error e => rfl
  | ok o =>
    cases o with
    | none => rfl
    | some pr =>
      obtain ⟨a, b⟩ := pr
      dsimp only
      split_ifs <;> rfl

theorem upd_q1_ports_nil (env : FetchEnv) (st : CoordinatorState)
    (h : st.port_states = []) :
    (update_1q_vlan_info env st).port_states = [] := by
  unfold update_1q_vlan_info
  cases henv : env.q1_vlan_info with
  | error e => simp [h]
  | ok o =>
    cases o with
    | none => simp [h]
    | some pr =>
      obtain ⟨a, b⟩ := pr
      dsimp only
      split_ifs <;> simp [h]

theorem upd_q1_preserves_pb_none (env : FetchEnv) (st : CoordinatorState)
    (h : ∀ q ∈ st.port_states, q.port_based_vlanid = none) :
    ∀ q ∈ (update_1q_vlan_info env st).port_states, q.port_based_vlanid = none := by
  unfold update_1q_vlan_info
  cases henv : env.q1_vlan_info with
  | error e =>
    intro q hq
    obtain ⟨r, hr, rfl⟩ := List.mem_map.mp hq
    exact h r hr
  | ok o =>
    cases o with
    | none =>
      intro q hq
      obtain ⟨r, hr, rfl⟩ := List.mem_map.mp hq
      exact h r hr
    | some pr =>
      obtain ⟨a, b⟩ := pr
      dsimp only
      split_ifs <;> intro q hq
      · obtain ⟨r, hr, rfl⟩ := List.mem_map.mp hq
        exact h r hr
      · obtain ⟨r, hr, rfl⟩ := List.mem_map.mp hq
        exact h r hr
      · obtain ⟨r, hr, rfl⟩ := List.mem_map.mp hq
        exact h r hr

/-- C9, as written, is refuted at a cycle whose switch-info fetch fails
while every other sub-fetch succeeds: `_update_switch_info` has no
try/except, so the whole `async_update` aborts instead of degrading only
that sub-model and continuing. -/
theorem C9_counterexample :
    async_update
      { switch_info := .error (), port_states := .ok [], poe_available := false,
        poe_state := .ok none, port_poe_states := .ok [], pb_vlan_info := .ok none,
        q1_vlan_info := .ok none }
      { switch_info := none, port_states := [⟨1, 0, 0, true, false, false, none, none⟩],
        port_poe_states := [], poe_state := none, port_based_vlan_enabled := false,
        port_based_vlans := none, q1_vlan_enabled := false, q1_vlans := none } =
    .error () := rfl

/-- C9 (amended): when the switch-info fetch succeeds, the cycle always
completes, and a failure in any of the five remaining sub-fetches is
caught and only degrades that sub-model: port states and port PoE states
to `[]`, both VLAN tables to `none` with the per-port ids nulled —
except the device-wide PoE state, whose failure is caught but leaves the
previously cached value in place; a switch-info failure, by contrast, is
uncaught and aborts the remainder of the cycle. -/
theorem C9_theorem (env : FetchEnv) (st : CoordinatorState) (i : TpLinkSystemInfo)
    (hsw : env.switch_info = .ok i) :
    (async_update env st).isOk = true ∧
    ∀ st', async_update env st = .ok st' →
      (env.port_states = .error () → st'.port_states = []) ∧
      (env.poe_available = true → env.poe_state = .error () →
        st'.poe_state = st.poe_state) ∧
      (env.poe_available = true → env.port_poe_states = .error () →
        st'.port_poe_states = []) ∧
      (env.pb_vlan_info = .error () → st'.port_based_vlans = none ∧
        ∀ q ∈ st'.port_states, q.port_based_vlanid = none) ∧
      (env.q1_vlan_info = .error () → st'.q1_vlans = none ∧
        ∀ q ∈ st'.port_states, q.pvid_1q_vlanid = none) := by
  constructor
  · simp only [async_update, update_switch_info, hsw]
    rfl
  · intro st' h
    simp only [async_update, update_switch_info, hsw, Except.ok.injEq] at h
    subst h
    set st1 : CoordinatorState := { st with switch_info := some i } with hst1
    refine ⟨?_, ?_, ?_, ?_, ?_⟩
    · intro hps
      apply upd_q1_ports_nil
      apply upd_pb_ports_nil
      rw [upd_pps_port_states, upd_poe_port_states]
      simp [update_port_states, hps]
    · intro ha he
      rw [upd_q1_poe_state, upd_pb_poe_state, upd_pps_poe_state]
      have : update_poe_state env (update_port_states env st1) =
          update_port_states env st1 := by
        unfold update_poe_state
        rw [if_neg (by simp [ha]), he]
      rw [this, upd_ps_poe_state]
    · intro ha he
      rw [upd_q1_port_poe, upd_pb_port_poe]
      unfold update_port_poe_states
      rw [if_neg (by simp [ha]), he]
    · intro he
      constructor
      · rw [upd_q1_pb_vlans]
        unfold update_port_based_vlan_info
        rw [he]
      · apply upd_q1_preserves_pb_none
        unfold update_port_based_vlan_info
        rw [he]
        intro q hq
        obtain ⟨r, hr, rfl⟩ := List.mem_map.mp hq
        rfl
    · intro he
      unfold update_1q_vlan_info
      rw [he]
      refine ⟨rfl, ?_⟩
      intro q hq
      obtain ⟨r, hr, rfl⟩ := List.mem_map.mp hq
      rfl

/-- Environment for the C9 witness: switch info succeeds, every other
sub-fetch fails, PoE available. -/
def c9EnvW : FetchEnv :=
  { switch_info := .ok ⟨none, none, none, none, none, none, none⟩
    port_states := .error ()
    poe_available := true
    poe_state := .error ()
    port_poe_states := .error ()
    pb_vlan_info := .error ()
    q1_vlan_info := .error () }

/-- Stale cache for the C9 witness. -/
def c9StateW : CoordinatorState :=
  { switch_info := none
    port_states := [⟨1, 0, 0, true, false, false, some 1, some 1⟩]
    port_poe_states := []
    poe_state := some ⟨10, 5, 1, 30, 2⟩
    port_based_vlan_enabled := true
    port_based_vlans := some [(1, ⟨1, [1]⟩)]
    q1_vlan_enabled := true
    q1_vlans := some [(1, ⟨1, [1], [], []⟩)] }

/-- C9 witness: with every degradable sub-fetch failing, the cycle still
completes; port lists degrade to `[]`, the VLAN tables to `none`, and
the PoE state keeps its previous value. -/
theorem C9_witness :
    (async_update c9EnvW c9StateW).isOk = true ∧
    ∀ st', async_update c9EnvW c9StateW = .ok st' →
      st'.port_states = [] ∧ st'.poe_state = c9StateW.poe_state ∧
      st'.port_poe_states = [] ∧ st'.port_based_vlans = none ∧
      st'.q1_vlans = none := by
  have h := C9_theorem c9EnvW c9StateW ⟨none, none, none, none, none, none, none⟩ rfl
  refine ⟨h.1, fun st' hok => ?_⟩
  obtain ⟨h1, h2, h3, h4, h5⟩ := h.2 st' hok
  exact ⟨h1 rfl, h2 rfl rfl, h3 rfl rfl, (h4 rfl).1, (h5 rfl).1⟩

/-! ## Claim C10 -/

/-- C10: every port-indexed read accessor returns `none` whenever the
requested port number is below 1 or above the corresponding cached port
count (the port-states length for `get_port_state` /
`get_port_based_vlan` / `get_port_1q_pvid`, the port-PoE-states length
for `get_port_poe_state`), for every cache state. -/
theorem C10_theorem (st : CoordinatorState) (n : Int) :
    ((n < 1 ∨ n > (ports_count st : Int)) →
      get_port_state st n = none ∧ get_port_based_vlan st n = none ∧
      get_port_1q_pvid st n = none) ∧
    ((n < 1 ∨ n > (ports_poe_count st : Int)) → get_port_poe_state st n = none) := by
  constructor
  · intro h
    refine ⟨?_, ?_, ?_⟩
    · unfold get_port_state
      rw [if_pos (by tauto)]
    · unfold get_port_based_vlan
      rw [if_pos (by tauto)]
    · unfold get_port_1q_pvid
      rw [if_pos (by tauto)]
  · intro h
    unfold get_port_poe_state
    rw [if_pos (by tauto)]

/-- C10 witness: the four accessors at the out-of-range port number 0 of
an empty cache. -/
theorem C10_witness :
    get_port_state ⟨none, [], [], none, false, none, false, none⟩ 0 = none ∧
    get_port_based_vlan ⟨none, [], [], none, false, none, false, none⟩ 0 = none ∧
    get_port_1q_pvid ⟨none, [], [], none, false, none, false, none⟩ 0 = none ∧
    get_port_poe_state ⟨none, [], [], none, false, none, false, none⟩ 0 = none := by
  have h := C10_theorem ⟨none, [], [], none, false, none, false, none⟩ 0
  obtain ⟨h1, h2, h3⟩ := h.1 (Or.inl (by decide))
  exact ⟨h1, h2, h3, h.2 (Or.inl (by decide))⟩

end TpLinkEasySmart
